import Mathlib

/-!
# EigenLayer beacon oracle updater — verification of the reconciliation core

Shallow embedding of `src/main.rs`.  The program is a scheduler loop that
(1) locates the oracle contract's latest recorded checkpoint by scanning
event logs backward from the chain head (`get_latest_block_in_contract`),
and (2) decides whether to submit an `addTimestamp` transaction for the
next candidate block (body of the `loop` in `main`).

Modelling conventions:
* `u64` values are `Nat`; where the Rust code can wrap (primitive `u64`
  arithmetic compiled in release mode) we reduce modulo `2 ^ 64` explicitly.
* The ethers `U64` type (used for `curr_block` and `latest_block`) panics on
  underflow in every build profile (the `uint` crate checks overflow
  unconditionally), so subtraction on those values is modelled by an explicit
  panic branch, never by truncating `Nat` subtraction.
* The external provider and signer are modelled by a record of response
  functions (`ProviderState`); a fallible RPC call returns `Except Unit`.
  Log entries are modelled by the block number the `logs[0].block_number
  .unwrap().as_u64()` access extracts; `bytes32` roots are modelled by `Nat`
  with `0` standing for the all-zero root compared against `[0; 32]`.
* Rust `Result` propagation with `?` inside `main` ends the process with a
  non-zero exit (the `exited` outcome); `.unwrap()` / `.expect()` on an
  `Err`/`None`, and checked-arithmetic underflow, abort the process
  (the `panicked` / `panic` outcomes).
-/

namespace BeaconOracle

/-- `const MAX_DISTANCE_TO_FILL: u64 = 7200;` -/
def MAX_DISTANCE_TO_FILL : Nat := 7200

/-- Modulus of the Rust `u64` type. -/
def u64Mod : Nat := 2 ^ 64

/-- Result of `get_latest_block_in_contract` (a Rust `Result<u64>` whose
failure modes we keep apart), together with the ways the function can abort
the process.
* `found b`   — `Ok(b)`: a window contained at least one matching event and
  `logs[0].block_number` was `b`.
* `rpcError`  — `Err(_)` propagated by `?` from `get_block_number`/`get_logs`.
* `checkpointNotFound` — the final `Err("Could not find the latest block in
  the contract")` return after the `while` loop.
* `panic`     — a `U64` subtraction underflowed (the `uint` crate panics on
  overflow in all profiles). -/
inductive LocateResult where
  | found (blockNumber : Nat)
  | rpcError
  | checkpointNotFound
  | panic
deriving DecidableEq

/-- One observed chain/provider/signer state, fixed for the duration of a
single reconciliation cycle.  Each field is the response the corresponding
RPC primitive returns during this cycle.
* `getBlockNumberLocate` — `provider.get_block_number()` inside
  `get_latest_block_in_contract` (main.rs line 28).
* `logs lo hi` — `provider.get_logs(&filter)` for the filter
  `from_block lo, to_block hi` restricted to the oracle address and the
  `EigenLayerBeaconOracleUpdate` event: the block numbers of the matching
  entries, in the order the provider returns them (main.rs line 40).
* `getBlockNumberMain` — `client.get_block_number()` in `main`
  (main.rs line 98).
* `blockTimestamp n` — `client.get_block(n)`: `Ok(None)` when the block is
  missing (main.rs line 114); the timestamp of the block otherwise.
* `timestampToRoot ts` — the read-only call
  `contract.timestamp_to_block_root(ts)` (main.rs lines 116–119).
* `sendAddTimestamp ts` — `contract.add_timestamp(ts).send().await?.await?`:
  the optional receipt of the submitted transaction, or the error of either
  `await` (main.rs lines 123–127). -/
structure ProviderState where
  getBlockNumberLocate : Except Unit Nat
  logs : Nat → Nat → Except Unit (List Nat)
  getBlockNumberMain : Except Unit Nat
  blockTimestamp : Nat → Except Unit (Option Nat)
  timestampToRoot : Nat → Except Unit Nat
  sendAddTimestamp : Nat → Except Unit (Option Nat)

/-- The `while` loop of `get_latest_block_in_contract` (main.rs lines 31–47):

```rust
while curr_block > curr_block - MAX_DISTANCE_TO_FILL {
    let range_start_block = std::cmp::max(curr_block - MAX_DISTANCE_TO_FILL,
                                          curr_block - 500);
    let logs = provider.get_logs(&filter).await?;
    if logs.len() > 0 {
        return Ok(logs[0].block_number.unwrap().as_u64());
    }
    curr_block -= U64::from(500u64);
}
Err(...)
```

`curr_block` is an ethers `U64`, so `curr_block - MAX_DISTANCE_TO_FILL`
panics when `curr_block < 7200`; that evaluation happens first, inside the
loop guard, hence the leading panic branch.  When `curr_block ≥ 7200` the
guard compares `curr_block` with the honest difference, and the two
subtractions in `range_start_block` cannot underflow.  The decrement at the
bottom of the loop (`curr_block ≥ 7200 > 500`) cannot underflow either. -/
def locateLoop (logs : Nat → Nat → Except Unit (List Nat)) (currBlock : Nat) :
    LocateResult :=
  if currBlock < MAX_DISTANCE_TO_FILL then
    .panic
  else if currBlock - MAX_DISTANCE_TO_FILL < currBlock then
    match logs (max (currBlock - MAX_DISTANCE_TO_FILL) (currBlock - 500)) currBlock with
    | .error _ => .rpcError
    | .ok [] => locateLoop logs (currBlock - 500)
    | .ok (l :: _) => .found l
  else
    .checkpointNotFound
termination_by currBlock
decreasing_by
  simp only [MAX_DISTANCE_TO_FILL] at *
  omega

/-- `get_latest_block_in_contract` (main.rs lines 22–52): fetch the head
block number from the provider, then run the backward window scan from it. -/
def get_latest_block_in_contract (p : ProviderState) : LocateResult :=
  match p.getBlockNumberLocate with
  | .error _ => .rpcError
  | .ok latestBlock => locateLoop p.logs latestBlock

/-- The inclusive block range queried by one iteration of the scan whose
current scan block is `currBlock`:
`range_start_block = max(curr_block - MAX_DISTANCE_TO_FILL, curr_block - 500)`
(main.rs line 32) up to `to_block = curr_block` (main.rs line 36). -/
def inWindow (currBlock b : Nat) : Prop :=
  max (currBlock - MAX_DISTANCE_TO_FILL) (currBlock - 500) ≤ b ∧ b ≤ currBlock

instance (currBlock b : Nat) : Decidable (inWindow currBlock b) := by
  unfold inWindow; infer_instance

/-- `latest_block.as_u64() - 5` (main.rs line 106): primitive `u64`
subtraction of the constant `5`, wrapping in release builds. -/
def sub5 (head : Nat) : Nat :=
  if 5 ≤ head then head - 5 else head + u64Mod - 5

/-- `contract_curr_block + block_interval` (main.rs lines 106 and 111):
primitive `u64` addition, wrapping in release builds. -/
def candidateBlock (contractCurrBlock blockInterval : Nat) : Nat :=
  (contractCurrBlock + blockInterval) % u64Mod

/-- The eligibility guard
`contract_curr_block + block_interval < latest_block.as_u64() - 5`
(main.rs line 106). -/
def eligible (contractCurrBlock blockInterval head : Nat) : Bool :=
  candidateBlock contractCurrBlock blockInterval < sub5 head

/-- Outcome of one iteration of the scheduler `loop` in `main`.
* `continued s` — the iteration reached the `sleep` at the bottom of the
  loop and the next cycle will run; `s` is `some ts` when this cycle sent
  `add_timestamp(ts)` and received a receipt, `none` otherwise.
* `exited` — an `Err` was propagated by a `?` inside the loop, so `main`
  returned and the process exited with a failure status.
* `panicked` — a `.unwrap()` / checked subtraction aborted the process. -/
inductive CycleResult where
  | continued (submitted : Option Nat)
  | exited
  | panicked
deriving DecidableEq

/-- One iteration of the scheduler `loop` in `main` (main.rs lines 81–139),
paired with the list of timestamps `ts` for which this iteration invoked
`contract.add_timestamp(ts).send()` (the submission attempts, recorded even
when a later `await` fails).

Control flow mirrored from the source:
* `get_latest_block_in_contract(...).await.unwrap()` (line 95): any `Err`
  from the locator — RPC failure or the not-found case — panics.
* `client.get_block_number().await?` (line 98): an `Err` exits `main`.
* the status `println!` computes `latest_block - contract_curr_block`
  (line 102) with ethers `U64` subtraction, which panics on underflow.
* the eligibility guard (line 106); when it fails the iteration falls
  through to the sleep.
* `client.get_block(interval_block_nb).await?` (line 114) exits on `Err`;
  `interval_block.unwrap()` (line 115) panics when the block is missing.
* `timestamp_to_block_root(...).call().await?` (line 119) exits on `Err`.
* the zero-root guard `interval_beacon_block_root == [0; 32]` (line 122);
  a non-zero root falls through to the sleep without sending.
* `add_timestamp(...).send().await?.await?` (lines 123–127) exits on `Err`;
  an `Ok` receipt (present or not) falls through to the sleep. -/
def mainCycle (blockInterval : Nat) (p : ProviderState) :
    CycleResult × List Nat :=
  match get_latest_block_in_contract p with
  | .found contractCurrBlock =>
    match p.getBlockNumberMain with
    | .error _ => (.exited, [])
    | .ok latestBlock =>
      if latestBlock < contractCurrBlock then (.panicked, [])
      else if eligible contractCurrBlock blockInterval latestBlock then
        match p.blockTimestamp (candidateBlock contractCurrBlock blockInterval) with
        | .error _ => (.exited, [])
        | .ok none => (.panicked, [])
        | .ok (some ts) =>
          match p.timestampToRoot ts with
          | .error _ => (.exited, [])
          | .ok root =>
            if root = 0 then
              match p.sendAddTimestamp ts with
              | .error _ => (.exited, [ts])
              | .ok _ => (.continued (some ts), [ts])
            else (.continued none, [])
      else (.continued none, [])
  | .rpcError => (.panicked, [])
  | .checkpointNotFound => (.panicked, [])
  | .panic => (.panicked, [])

set_option maxRecDepth 4000 in
/-- The scan blocks visited by the loop of `get_latest_block_in_contract`
when started at a given scan block: the start itself, and — whenever the
guard succeeds (`MAX_DISTANCE_TO_FILL ≤ currBlock`, so no underflow panic)
and the window query returns no events — everything visited from
`currBlock - 500`. -/
inductive Visits (logs : Nat → Nat → Except Unit (List Nat)) : Nat → Nat → Prop where
  | refl (currBlock : Nat) : Visits logs currBlock currBlock
  | step {currBlock k : Nat} :
      MAX_DISTANCE_TO_FILL ≤ currBlock →
      logs (max (currBlock - MAX_DISTANCE_TO_FILL) (currBlock - 500)) currBlock =
        Except.ok [] →
      Visits logs (currBlock - 500) k →
      Visits logs currBlock k

/-! ## Concrete chain states used to evaluate the embedded code -/

/-- A log source with no matching oracle-update event anywhere. -/
def emptyLogs : Nat → Nat → Except Unit (List Nat) := fun _ _ => .ok []

/-- A log source whose every window query reports one matching event at the
top of the queried range. -/
def alwaysFoundLogs : Nat → Nat → Except Unit (List Nat) := fun _ hi => .ok [hi]

/-- Chain head 8000 and no oracle-update event anywhere. -/
def noEventProvider : ProviderState where
  getBlockNumberLocate := .ok 8000
  logs := emptyLogs
  getBlockNumberMain := .ok 8000
  blockTimestamp := fun _ => .error ()
  timestampToRoot := fun _ => .error ()
  sendAddTimestamp := fun _ => .error ()

/-- Chain head 20000 with a single matching event at block 11000 — more than
`MAX_DISTANCE_TO_FILL` blocks behind the head. -/
def outsideHorizonProvider : ProviderState where
  getBlockNumberLocate := .ok 20000
  logs := fun lo hi => if lo ≤ 11000 ∧ 11000 ≤ hi then .ok [11000] else .ok []
  getBlockNumberMain := .ok 20000
  blockTimestamp := fun _ => .error ()
  timestampToRoot := fun _ => .error ()
  sendAddTimestamp := fun _ => .error ()

/-- Chain head 10000 with two matching events in the first window, reported
by the provider in ascending block order: 9600 then 9700. -/
def ascendingLogsProvider : ProviderState where
  getBlockNumberLocate := .ok 10000
  logs := fun _ _ => .ok [9600, 9700]
  getBlockNumberMain := .ok 10000
  blockTimestamp := fun _ => .error ()
  timestampToRoot := fun _ => .error ()
  sendAddTimestamp := fun _ => .error ()

/-- A provider whose `get_block_number` call inside the checkpoint locator
fails: the recoverable per-cycle error of Claim C1. -/
def locatorDownProvider : ProviderState where
  getBlockNumberLocate := .error ()
  logs := emptyLogs
  getBlockNumberMain := .error ()
  blockTimestamp := fun _ => .error ()
  timestampToRoot := fun _ => .error ()
  sendAddTimestamp := fun _ => .error ()

/-- Head 10000, checkpoint event at 9900: with interval 500 the candidate
10400 is not yet eligible, so the cycle reaches the sleep untouched. -/
def quietProvider : ProviderState where
  getBlockNumberLocate := .ok 10000
  logs := fun _ _ => .ok [9900]
  getBlockNumberMain := .ok 10000
  blockTimestamp := fun _ => .error ()
  timestampToRoot := fun _ => .error ()
  sendAddTimestamp := fun _ => .error ()

/-- Head 101506, checkpoint event at 101200 (candidate 101500 eligible with
interval 300), and a provider whose candidate block fetch fails with an RPC
error. -/
def fetchErrProvider : ProviderState where
  getBlockNumberLocate := .ok 101506
  logs := fun _ _ => .ok [101200]
  getBlockNumberMain := .ok 101506
  blockTimestamp := fun _ => .error ()
  timestampToRoot := fun _ => .error ()
  sendAddTimestamp := fun _ => .error ()

/-- Head 101506, checkpoint event at 101200 (candidate 101500 eligible with
interval 300), and a provider that reports the candidate block as missing
(`get_block` returns `Ok(None)`). -/
def missingBlockProvider : ProviderState where
  getBlockNumberLocate := .ok 101506
  logs := fun _ _ => .ok [101200]
  getBlockNumberMain := .ok 101506
  blockTimestamp := fun _ => .ok none
  timestampToRoot := fun _ => .error ()
  sendAddTimestamp := fun _ => .error ()

/-- Head 101506, checkpoint event at 101200, candidate 101500 eligible with
interval 300, candidate timestamp 777 not yet recorded (zero root), and a
submission that succeeds with a receipt. -/
def submitProvider : ProviderState where
  getBlockNumberLocate := .ok 101506
  logs := fun _ _ => .ok [101200]
  getBlockNumberMain := .ok 101506
  blockTimestamp := fun _ => .ok (some 777)
  timestampToRoot := fun _ => .ok 0
  sendAddTimestamp := fun _ => .ok (some 42)

/-! ## Helper lemmas about the locator loop -/

/-- Evaluating the loop guard with a scan block below `MAX_DISTANCE_TO_FILL`
underflows the `U64` subtraction and aborts the process. -/
theorem locateLoop_panic_of_lt (logs : Nat → Nat → Except Unit (List Nat))
    (n : Nat) (h : n < MAX_DISTANCE_TO_FILL) : locateLoop logs n = .panic := by
  unfold locateLoop
  rw [if_pos h]

/-- When the guard does not panic and the window query returns no events, the
loop moves on to the scan block 500 lower. -/
theorem locateLoop_step (logs : Nat → Nat → Except Unit (List Nat)) (n : Nat)
    (h : MAX_DISTANCE_TO_FILL ≤ n)
    (hl : logs (max (n - MAX_DISTANCE_TO_FILL) (n - 500)) n = Except.ok []) :
    locateLoop logs n = locateLoop logs (n - 500) := by
  have h1 : ¬ n < MAX_DISTANCE_TO_FILL := Nat.not_lt.mpr h
  have h2 : n - MAX_DISTANCE_TO_FILL < n := by
    simp only [MAX_DISTANCE_TO_FILL] at *
    omega
  conv_lhs => unfold locateLoop
  rw [if_neg h1, if_pos h2, hl]

/-- The `Err("Could not find the latest block in the contract")` return after
the `while` loop is dead code: the guard `curr_block > curr_block -
MAX_DISTANCE_TO_FILL` is true whenever its subtraction does not panic. -/
theorem locateLoop_ne_checkpointNotFound
    (logs : Nat → Nat → Except Unit (List Nat)) (n : Nat) :
    locateLoop logs n ≠ .checkpointNotFound := by
  induction n using Nat.strong_induction_on with
  | _ n ih =>
    unfold locateLoop
    split
    · simp
    · split
      · split
        · simp
        · exact ih _ (by simp only [MAX_DISTANCE_TO_FILL] at *; omega)
        · simp
      · simp only [MAX_DISTANCE_TO_FILL] at *
        omega

/-- The loop's result is the same from every scan block it visits. -/
theorem visits_locateLoop_eq {logs : Nat → Nat → Except Unit (List Nat)}
    {c k : Nat} (hv : Visits logs c k) :
    locateLoop logs c = locateLoop logs k := by
  induction hv with
  | refl => rfl
  | step h1 h2 _ ih =>
    rw [locateLoop_step _ _ h1 h2]
    exact ih

/-! ## Claim C2 -/

/-- Claim C2 — the claim says that with no matching event in
`[head - 7200, head]` the locator returns the `CheckpointNotFound` error.
On the code, with head 8000 and no events at all, the scan queries the
windows `[7500, 8000]` and `[7000, 7500]` and then panics when the guard
subtraction `curr_block - MAX_DISTANCE_TO_FILL` underflows at scan block
7000; the `CheckpointNotFound` return is never reached. -/
theorem c2_no_event_panics_instead_of_notFound :
    get_latest_block_in_contract noEventProvider = LocateResult.panic ∧
    get_latest_block_in_contract noEventProvider ≠
      LocateResult.checkpointNotFound := by
  refine ⟨?_, ?_⟩ <;>
    simp [get_latest_block_in_contract, noEventProvider, emptyLogs, locateLoop,
      MAX_DISTANCE_TO_FILL]

/-! ## Claim C3 -/

/-- Claim C3, counterexample — the claim says the backward search runs only
until a match is found or the maximum backward distance of 7200 blocks is
exhausted.  With head 20000 and the only matching event at block 11000 —
deeper than `head - 7200 = 12800` — the loop keeps scanning past the
exhausted horizon and returns that event, so horizon exhaustion does not
stop it. -/
theorem c3_search_continues_past_horizon :
    get_latest_block_in_contract outsideHorizonProvider =
      LocateResult.found 11000 ∧
    11000 < 20000 - MAX_DISTANCE_TO_FILL := by
  refine ⟨?_, by simp [MAX_DISTANCE_TO_FILL]⟩
  simp [get_latest_block_in_contract, outsideHorizonProvider, locateLoop,
    MAX_DISTANCE_TO_FILL]

/-- Claim C3, amended — the backward-search loop terminates for every head
and log source (the embedding is a total function), and the scan block
strictly decreases by 500 at every iteration whose window is empty; but the
terminal cases are finding a match, an RPC error, or the underflow panic at
scan blocks below 7200 — never the `CheckpointNotFound` exit, and the loop
is not bounded by the 7200-block distance from the head. -/
theorem c3_termination_found_or_panic :
    (∀ (logs : Nat → Nat → Except Unit (List Nat)) (n : Nat),
        locateLoop logs n ≠ LocateResult.checkpointNotFound) ∧
    (∀ (logs : Nat → Nat → Except Unit (List Nat)) (n : Nat),
        MAX_DISTANCE_TO_FILL ≤ n →
        logs (max (n - MAX_DISTANCE_TO_FILL) (n - 500)) n = Except.ok [] →
        locateLoop logs n = locateLoop logs (n - 500) ∧ n - 500 < n) := by
  refine ⟨locateLoop_ne_checkpointNotFound, fun logs n h hl => ?_⟩
  refine ⟨locateLoop_step logs n h hl, ?_⟩
  simp only [MAX_DISTANCE_TO_FILL] at h
  omega

/-- Witness for the amended Claim C3 at the empty log source and scan block
8000. -/
theorem c3_termination_found_or_panic_witness :
    locateLoop emptyLogs 8000 ≠ LocateResult.checkpointNotFound ∧
    (locateLoop emptyLogs 8000 = locateLoop emptyLogs (8000 - 500) ∧
      8000 - 500 < 8000) :=
  ⟨c3_termination_found_or_panic.1 emptyLogs 8000,
   c3_termination_found_or_panic.2 emptyLogs 8000 (by decide) rfl⟩

/-! ## Claim C4 -/

/-- Claim C4 — the claim (and the code's own comment, "Return the most
recent block number from the logs") says the block returned is the highest
block among the events found in the window.  Event logs are returned in
ascending block order, and the code returns `logs[0]`: with head 10000 and
matching events at 9600 and 9700 in the first window, it returns 9600, the
lowest. -/
theorem c4_returns_first_not_highest :
    get_latest_block_in_contract ascendingLogsProvider =
      LocateResult.found 9600 ∧
    (9600 : Nat) < 9700 := by
  refine ⟨?_, by decide⟩
  simp [get_latest_block_in_contract, ascendingLogsProvider, locateLoop,
    MAX_DISTANCE_TO_FILL]

/-! ## Claim C9 -/

/-- Claim C9, counterexample — the claim says consecutive windows neither
double-count nor skip any block.  Both the window at scan block 10000
(`[9500, 10000]`) and the next window at scan block 9500 (`[9000, 9500]`)
contain block 9500: the shared boundary block is queried twice. -/
theorem c9_consecutive_windows_share_boundary :
    inWindow 10000 9500 ∧ inWindow (10000 - 500) 9500 := by
  refine ⟨?_, ?_⟩ <;> decide

/-- Claim C9, amended — each queried window is
`[max(curr - 7200, curr - 500), curr] = [curr - 500, curr]`, and on no match
the scan block moves down by 500; consecutive inclusive windows overlap in
exactly the boundary block `curr - 500` (one block double-counted) and skip
none: together they cover `[curr - 1000, curr]` exactly. -/
theorem c9_window_shape_overlap_no_skip :
    ∀ curr b : Nat, 7700 ≤ curr →
      ((inWindow curr b ↔ curr - 500 ≤ b ∧ b ≤ curr) ∧
       ((inWindow curr b ∧ inWindow (curr - 500) b) ↔ b = curr - 500) ∧
       ((inWindow curr b ∨ inWindow (curr - 500) b) ↔
          curr - 1000 ≤ b ∧ b ≤ curr)) := by
  intro curr b h
  unfold inWindow
  simp only [MAX_DISTANCE_TO_FILL, Nat.max_def]
  split_ifs <;> omega

/-- Witness for the amended Claim C9 at scan block 10000 and block 9999. -/
theorem c9_window_shape_overlap_no_skip_witness :
    (inWindow 10000 9999 ↔ 10000 - 500 ≤ 9999 ∧ 9999 ≤ 10000) ∧
    ((inWindow 10000 9999 ∧ inWindow (10000 - 500) 9999) ↔
       9999 = 10000 - 500) ∧
    ((inWindow 10000 9999 ∨ inWindow (10000 - 500) 9999) ↔
       10000 - 1000 ≤ 9999 ∧ 9999 ≤ 10000) :=
  c9_window_shape_overlap_no_skip 10000 9999 (by decide)

/-! ## Claim C10 -/

/-- Claim C10 — the locator panics as soon as any scan block drops below
`MAX_DISTANCE_TO_FILL = 7200` (the `U64` guard subtraction underflows), so a
non-panicking run requires the head and every visited scan block to stay at
or above 7200. -/
theorem c10_nonpanic_requires_high_scan_blocks :
    (∀ (logs : Nat → Nat → Except Unit (List Nat)) (n : Nat),
        n < MAX_DISTANCE_TO_FILL → locateLoop logs n = LocateResult.panic) ∧
    (∀ (logs : Nat → Nat → Except Unit (List Nat)) (head k : Nat),
        locateLoop logs head ≠ LocateResult.panic →
        Visits logs head k → MAX_DISTANCE_TO_FILL ≤ k) := by
  constructor
  · exact fun logs n h => locateLoop_panic_of_lt logs n h
  · intro logs head k hnp hv
    by_contra hk
    push_neg at hk
    rw [visits_locateLoop_eq hv, locateLoop_panic_of_lt logs k hk] at hnp
    exact hnp rfl

/-- Witness for Claim C10: scan block 5000 panics for the empty log source,
and a run that finds an event at once (head 9000, every window non-empty)
does not panic, its visited head being at least 7200. -/
theorem c10_nonpanic_requires_high_scan_blocks_witness :
    locateLoop emptyLogs 5000 = LocateResult.panic ∧
    MAX_DISTANCE_TO_FILL ≤ 9000 :=
  ⟨c10_nonpanic_requires_high_scan_blocks.1 emptyLogs 5000 (by decide),
   c10_nonpanic_requires_high_scan_blocks.2 alwaysFoundLogs 9000 9000
     (by simp [locateLoop, alwaysFoundLogs, MAX_DISTANCE_TO_FILL])
     (Visits.refl 9000)⟩

/-! ## Claim C1 -/

/-- Claim C1, counterexample — the claim says a checkpoint-locator failure
is logged, aborts only the cycle, and the scheduler loop continues.  On the
code, when the locator's `get_block_number` call fails, the `Err` reaches
the `.unwrap()` on line 95 and the process panics: the cycle result is
`panicked`, not a continuation. -/
theorem c1_locator_failure_kills_process :
    (mainCycle 500 locatorDownProvider).1 = CycleResult.panicked ∧
    (mainCycle 500 locatorDownProvider).1 ≠ CycleResult.continued none := by
  refine ⟨?_, ?_⟩ <;>
    simp [mainCycle, get_latest_block_in_contract, locatorDownProvider]

/-- Claim C1, amended — no per-cycle error is caught: a cycle reaches the
sleep (the loop continues) only when the checkpoint locator returned a
block and the head re-fetch succeeded; every locator failure panics via
`.unwrap()`, and every provider/submission failure on the taken path exits
`main` via `?` or panics. -/
theorem c1_cycle_continues_only_on_success :
    ∀ (blockInterval : Nat) (p : ProviderState) (s : Option Nat),
      (mainCycle blockInterval p).1 = CycleResult.continued s →
      (∃ b, get_latest_block_in_contract p = LocateResult.found b) ∧
      (∃ h, p.getBlockNumberMain = Except.ok h) := by
  intro iv p s hc
  cases hloc : get_latest_block_in_contract p with
  | found b =>
    cases hm : p.getBlockNumberMain with
    | error e => simp [mainCycle, hloc, hm] at hc
    | ok h => exact ⟨⟨b, rfl⟩, ⟨h, rfl⟩⟩
  | rpcError => simp [mainCycle, hloc] at hc
  | checkpointNotFound => simp [mainCycle, hloc] at hc
  | panic => simp [mainCycle, hloc] at hc

/-- Witness for the amended Claim C1: a cycle that reaches the sleep with
nothing to do (head 10000, checkpoint 9900, interval 500 not yet due). -/
theorem c1_cycle_continues_only_on_success_witness :
    (∃ b, get_latest_block_in_contract quietProvider = LocateResult.found b) ∧
    (∃ h, quietProvider.getBlockNumberMain = Except.ok h) :=
  c1_cycle_continues_only_on_success 500 quietProvider none
    (by simp [mainCycle, get_latest_block_in_contract, quietProvider,
      locateLoop, MAX_DISTANCE_TO_FILL, eligible, candidateBlock, sub5,
      u64Mod])

/-! ## Claim C5 -/

/-- Claim C5 — the eligibility guard on line 106 proceeds exactly when
`contract_curr_block + block_interval < latest_block - 5` (for `u64` values
that do not wrap: `5 ≤ head` and no overflow of the sum); with checkpoint
1000 and interval 500, head 1505 is not eligible and head 1506 is; on a
cycle whose locator returned `cp ≤ head`, an ineligible guard makes the
cycle fall through to the sleep with nothing submitted, and an eligible
guard makes it proceed to the candidate block fetch (observable through the
fetch outcome deciding the cycle result). -/
theorem c5_eligibility_boundary :
    (∀ cp iv head : Nat, 5 ≤ head → cp + iv < u64Mod →
      (eligible cp iv head = true ↔ cp + iv < head - 5)) ∧
    eligible 1000 500 1505 = false ∧
    eligible 1000 500 1506 = true ∧
    (∀ (iv : Nat) (p : ProviderState) (cp h : Nat),
      get_latest_block_in_contract p = LocateResult.found cp →
      p.getBlockNumberMain = Except.ok h →
      cp ≤ h →
      eligible cp iv h = false →
      mainCycle iv p = (CycleResult.continued none, [])) ∧
    (∀ (iv : Nat) (p : ProviderState) (cp h : Nat),
      get_latest_block_in_contract p = LocateResult.found cp →
      p.getBlockNumberMain = Except.ok h →
      cp ≤ h →
      eligible cp iv h = true →
      p.blockTimestamp (candidateBlock cp iv) = Except.error () →
      mainCycle iv p = (CycleResult.exited, [])) := by
  refine ⟨?_, by decide, by decide, ?_, ?_⟩
  · intro cp iv head h5 hlt
    unfold eligible candidateBlock sub5
    rw [if_pos h5, Nat.mod_eq_of_lt hlt]
    simp
  · intro iv p cp h hloc hm hch hel
    simp [mainCycle, hloc, hm, Nat.not_lt.mpr hch, hel]
  · intro iv p cp h hloc hm hch hel hbt
    simp [mainCycle, hloc, hm, Nat.not_lt.mpr hch, hel, hbt]

/-- Witness for Claim C5 at the boundary head 1506 and at a concrete
eligible cycle (head 101506, checkpoint 101200, interval 300) whose
candidate block fetch fails. -/
theorem c5_eligibility_boundary_witness :
    (eligible 1000 500 1506 = true ↔ 1000 + 500 < 1506 - 5) ∧
    mainCycle 300 fetchErrProvider = (CycleResult.exited, []) :=
  ⟨c5_eligibility_boundary.1 1000 500 1506 (by decide) (by decide),
   c5_eligibility_boundary.2.2.2.2 300 fetchErrProvider 101200 101506
     (by simp [get_latest_block_in_contract, fetchErrProvider, locateLoop,
       MAX_DISTANCE_TO_FILL])
     rfl (by decide) (by decide) rfl⟩

/-! ## Claim C6 -/

/-- Claim C6 — on an eligible cycle that obtained the candidate block's
timestamp and read the contract's timestamp-to-root mapping: a non-zero
root makes the cycle fall through to the sleep with no transaction
(`Skipped`); a zero root makes it invoke `add_timestamp` for that
timestamp, and on a successful send the cycle records the submission. -/
theorem c6_duplicate_guard :
    ∀ (iv : Nat) (p : ProviderState) (cp h ts root : Nat),
      get_latest_block_in_contract p = LocateResult.found cp →
      p.getBlockNumberMain = Except.ok h →
      cp ≤ h →
      eligible cp iv h = true →
      p.blockTimestamp (candidateBlock cp iv) = Except.ok (some ts) →
      p.timestampToRoot ts = Except.ok root →
      ((root ≠ 0 → mainCycle iv p = (CycleResult.continued none, [])) ∧
       (root = 0 → (mainCycle iv p).2 = [ts]) ∧
       (root = 0 → ∀ rcpt, p.sendAddTimestamp ts = Except.ok rcpt →
          mainCycle iv p = (CycleResult.continued (some ts), [ts]))) := by
  intro iv p cp h ts root hloc hm hch hel hbt hroot
  refine ⟨?_, ?_, ?_⟩
  · intro hnz
    simp [mainCycle, hloc, hm, Nat.not_lt.mpr hch, hel, hbt, hroot, hnz]
  · intro hz
    subst hz
    simp only [mainCycle, hloc, hm, Nat.not_lt.mpr hch, hel, hbt, hroot]
    cases hs : p.sendAddTimestamp ts <;> simp
  · intro hz rcpt hs
    subst hz
    simp [mainCycle, hloc, hm, Nat.not_lt.mpr hch, hel, hbt, hroot, hs]

/-- Witness for Claim C6: the cycle with head 101506, checkpoint 101200,
interval 300, unrecorded candidate timestamp 777 and a successful send
submits exactly that timestamp. -/
theorem c6_duplicate_guard_witness :
    mainCycle 300 submitProvider =
      (CycleResult.continued (some 777), [777]) :=
  (c6_duplicate_guard 300 submitProvider 101200 101506 777 0
      (by simp [get_latest_block_in_contract, submitProvider, locateLoop,
        MAX_DISTANCE_TO_FILL])
      rfl (by decide) (by decide) rfl rfl).2.2 rfl (some 42) rfl

/-! ## Claim C7 -/

/-- Claim C7 — in every cycle at most one `add_timestamp` transaction is
submitted, and every submitted timestamp had been looked up in the
contract's timestamp-to-root mapping in the same cycle and found
unrecorded (zero root). -/
theorem c7_at_most_one_submission :
    ∀ (blockInterval : Nat) (p : ProviderState),
      (mainCycle blockInterval p).2.length ≤ 1 ∧
      ∀ ts, ts ∈ (mainCycle blockInterval p).2 →
        p.timestampToRoot ts = Except.ok 0 := by
  intro iv p
  cases hloc : get_latest_block_in_contract p with
  | rpcError => simp [mainCycle, hloc]
  | checkpointNotFound => simp [mainCycle, hloc]
  | panic => simp [mainCycle, hloc]
  | found cp =>
    cases hm : p.getBlockNumberMain with
    | error e => simp [mainCycle, hloc, hm]
    | ok hd =>
      by_cases hlt : hd < cp
      · simp [mainCycle, hloc, hm, hlt]
      · by_cases hel : eligible cp iv hd = true
        · cases hbt : p.blockTimestamp (candidateBlock cp iv) with
          | error e => simp [mainCycle, hloc, hm, hlt, hel, hbt]
          | ok ob =>
            cases ob with
            | none => simp [mainCycle, hloc, hm, hlt, hel, hbt]
            | some ts =>
              cases hroot : p.timestampToRoot ts with
              | error e => simp [mainCycle, hloc, hm, hlt, hel, hbt, hroot]
              | ok root =>
                by_cases hz : root = 0
                · subst hz
                  cases hs : p.sendAddTimestamp ts <;>
                    simp [mainCycle, hloc, hm, hlt, hel, hbt, hroot, hs]
                · simp [mainCycle, hloc, hm, hlt, hel, hbt, hroot, hz]
        · simp [mainCycle, hloc, hm, hlt, hel]

/-- Witness for Claim C7 at the submitting cycle of `submitProvider`: the
submitted timestamp 777 was read as unrecorded in the same cycle. -/
theorem c7_at_most_one_submission_witness :
    (mainCycle 300 submitProvider).2.length ≤ 1 ∧
    submitProvider.timestampToRoot 777 = Except.ok 0 :=
  ⟨(c7_at_most_one_submission 300 submitProvider).1,
   (c7_at_most_one_submission 300 submitProvider).2 777
     (by simp [mainCycle, get_latest_block_in_contract, submitProvider,
       locateLoop, MAX_DISTANCE_TO_FILL, eligible, candidateBlock, sub5,
       u64Mod])⟩

/-! ## Claim C8 -/

/-- Claim C8, counterexample — the claim says a missing candidate block
yields a transient `BlockFetchError`: the cycle is skipped and the next
scheduled cycle re-evaluates, without crashing the process.  On the code,
`interval_block.unwrap()` (line 115) panics when `get_block` returns
`Ok(None)`: with head 101506, checkpoint 101200, interval 300 and the
candidate block 101500 missing, the process aborts. -/
theorem c8_missing_block_panics :
    mainCycle 300 missingBlockProvider = (CycleResult.panicked, []) ∧
    (mainCycle 300 missingBlockProvider).1 ≠ CycleResult.continued none := by
  refine ⟨?_, ?_⟩ <;>
    simp [mainCycle, get_latest_block_in_contract, missingBlockProvider,
      locateLoop, MAX_DISTANCE_TO_FILL, eligible, candidateBlock, sub5,
      u64Mod]

/-- Claim C8, amended — on an eligible cycle, a missing candidate block
(`get_block` returning `Ok(None)`) panics the process via `.unwrap()`, and
an RPC failure of the block fetch exits `main` via `?`; in neither case is
the cycle skipped with the loop continuing. -/
theorem c8_missing_block_terminates_process :
    ∀ (iv : Nat) (p : ProviderState) (cp h : Nat),
      get_latest_block_in_contract p = LocateResult.found cp →
      p.getBlockNumberMain = Except.ok h →
      cp ≤ h →
      eligible cp iv h = true →
      ((p.blockTimestamp (candidateBlock cp iv) = Except.ok none →
          mainCycle iv p = (CycleResult.panicked, [])) ∧
       (p.blockTimestamp (candidateBlock cp iv) = Except.error () →
          mainCycle iv p = (CycleResult.exited, []))) := by
  intro iv p cp h hloc hm hch hel
  refine ⟨?_, ?_⟩ <;> intro hbt <;>
    simp [mainCycle, hloc, hm, Nat.not_lt.mpr hch, hel, hbt]

/-- Witness for the amended Claim C8 at the concrete cycle whose candidate
block 101500 is missing. -/
theorem c8_missing_block_terminates_process_witness :
    mainCycle 300 missingBlockProvider = (CycleResult.panicked, []) :=
  (c8_missing_block_terminates_process 300 missingBlockProvider 101200 101506
      (by simp [get_latest_block_in_contract, missingBlockProvider,
        locateLoop, MAX_DISTANCE_TO_FILL])
      rfl (by decide) (by decide)).1 rfl

end BeaconOracle
